import Mathlib

/-!
Shallow embedding of the WalkWithUs backend (`server.py`): the notification
targeting engine, the 24h-reminder and retention jobs, session
authentication, booking creation, and admin age-band statistics.
Machine integers are modelled as `Int`; Mongo documents as Lean structures
with `Option` fields for keys that may be absent or null; time as an
integer number of seconds (UTC).
-/

namespace WalkWithUs

/-- Python `str.upper()` restricted to ASCII letters (the only inputs the
normalizer distinguishes are ASCII). -/
def pyUpper (s : String) : String := ⟨s.data.map Char.toUpper⟩

/-- Python `str.strip()`: drop leading and trailing whitespace. -/
def pyStrip (s : String) : String :=
  ⟨((s.data.dropWhile Char.isWhitespace).reverse.dropWhile Char.isWhitespace).reverse⟩

/-- Embedding of `normalize_sex` (server.py lines 161-174): empty input is falsy and
yields `None`; otherwise the upper-cased, stripped value is compared against
the recognized spellings, and anything unrecognized is returned unchanged. -/
def normalize_sex (sex_value : String) : Option String :=
  if sex_value = "" then none
  else if pyStrip (pyUpper sex_value) = "M" ∨
          pyStrip (pyUpper sex_value) = "MALE" then some "M"
  else if pyStrip (pyUpper sex_value) = "F" ∨
          pyStrip (pyUpper sex_value) = "FEMALE" then some "F"
  else if pyStrip (pyUpper sex_value) = "X" ∨
          pyStrip (pyUpper sex_value) = "PREFER NOT TO SAY" ∨
          pyStrip (pyUpper sex_value) = "N/A" ∨
          pyStrip (pyUpper sex_value) = "OTHER" then some "X"
  else some sex_value

/-- Embedding of `normalize_sex` applied to a possibly-`None` Python value: `None` is
falsy, so the function returns `None` on it. -/
def normalize_sexO (sex_value : Option String) : Option String :=
  match sex_value with
  | none => none
  | some s => normalize_sex s

/-- Embedding of `normalize_sex_list` (server.py lines 176-180): keep the truthy
normalizations.  `normalize_sex` never returns an empty string, so the
Python truthiness filter coincides with discarding `None`. -/
def normalize_sex_list (sex_list : List String) : List String :=
  sex_list.filterMap normalize_sex

/-- The expansion of normalized walk sex conditions into all stored
spellings they should match (server.py lines 211-218). -/
def sex_match_values (walk_sex_normalized : List String) : List String :=
  walk_sex_normalized.flatMap fun sex =>
    if sex = "M" then ["M", "Male"]
    else if sex = "F" then ["F", "Female"]
    else if sex = "X" then ["X", "Prefer not to say", "N/A", "Other"]
    else []

/-- A user document as stored in `db.users`.  Fields that a Mongo document
may lack (or hold null in) are `Option`s. -/
structure UserDoc where
  user_id : String
  name : String := ""
  email : String := ""
  city : Option String := none
  neighborhood : Option String := none
  sex : Option String := none
  age : Option Int := none
  notifications_enabled : Option Bool := some true
  email_notifications : Option Bool := some true
  lastLoginAt : Option Int := none
  status : Option String := some "active"
  deriving Repr, DecidableEq

/-- A walk document as stored in `db.walks`; `sex_conds` and `age_groups`
are `conditions.sex` and `conditions.age_groups` with Python's
`get(..., [])` defaults already applied. -/
structure WalkDoc where
  walk_id : String
  title : String := ""
  date : String := ""
  time : String := ""
  city : String := ""
  neighborhood : String := ""
  organizer_id : String := ""
  max_participants : Int := 10
  sex_conds : List String := []
  age_groups : List String := []
  deriving Repr, DecidableEq

/-- The age-band predicate of the notification targeting engine
(server.py lines 258-274): does age group `g` match integer age `a`? -/
def age_group_match (g : String) (a : Int) : Bool :=
  if g = "18-24" then decide (18 ≤ a ∧ a ≤ 24)
  else if g = "25-34" then decide (25 ≤ a ∧ a ≤ 34)
  else if g = "35-44" then decide (35 ≤ a ∧ a ≤ 44)
  else if g = "45-54" then decide (45 ≤ a ∧ a ≤ 54)
  else if g = "55-64" then decide (55 ≤ a ∧ a ≤ 64)
  else if g = "65-74" then decide (65 ≤ a ∧ a ≤ 74)
  else if g = "75+" then decide (75 ≤ a)
  else false

/-- The Mongo base query of `notify_previous_participants`
(server.py lines 228-236): notifications enabled, same city, not the
organizer, and — when the expanded sex list is non-empty — stored sex
among the expanded values. -/
def base_query_matches (walk : WalkDoc) (smv : List String) (u : UserDoc) : Bool :=
  u.notifications_enabled = some true &&
  u.city = some walk.city &&
  u.user_id ≠ walk.organizer_id &&
  (smv.isEmpty || (match u.sex with
                   | some s => smv.contains s
                   | none => false))

/-- The in-Python age filter of `notify_previous_participants`
(server.py lines 250-280): users without an age are skipped, others must
match at least one listed age group. -/
def age_filter (groups : List String) (u : UserDoc) : Bool :=
  match u.age with
  | none => false
  | some a => groups.any fun g => age_group_match g a

/-- The set of users `notify_previous_participants` selects for
notification about a new walk (server.py lines 197-288); the base-query
fetch is capped at 10000 documents (`.to_list(10000)`, line 241). -/
def notify_targets (users : List UserDoc) (walk : WalkDoc) : List UserDoc :=
  if walk.age_groups.isEmpty then
    (users.filter (base_query_matches walk
      (sex_match_values (normalize_sex_list walk.sex_conds)))).take 10000
  else
    ((users.filter (base_query_matches walk
      (sex_match_values (normalize_sex_list walk.sex_conds)))).take 10000).filter
      (age_filter walk.age_groups)

/-- Embedding of `send_email_notification` (server.py lines 182-195): with SendGrid not
configured it logs a mock email and returns `False`; with SendGrid
configured the implementation is deferred ("will be added later") and it
also only logs a mock and returns `False`.  The return value reports
whether an email was actually sent. -/
def send_email_notification (sendgrid_configured : Bool) : Bool :=
  if ¬sendgrid_configured then false
  else false

/-- The matched users for which `notify_previous_participants` attempts an
email (server.py lines 327-336): those with a truthy
`email_notifications` (missing defaults to `True`). -/
def notify_email_candidates (users : List UserDoc) (walk : WalkDoc) : List UserDoc :=
  (notify_targets users walk).filter fun u => u.email_notifications.getD true

/-- The users to whom `notify_previous_participants` actually delivers an
email: the candidates for which `send_email_notification` reports a send. -/
def notify_emails_delivered (sendgrid_configured : Bool)
    (users : List UserDoc) (walk : WalkDoc) : List UserDoc :=
  (notify_email_candidates users walk).filter fun _ =>
    send_email_notification sendgrid_configured

/-- A booking document in `db.bookings`. -/
structure BookingDoc where
  booking_id : String := ""
  walk_id : String
  user_id : String
  user_name : String := ""
  user_email : String := ""
  booked_at : Int := 0
  status : String := "active"
  deriving Repr, DecidableEq

/-- Duplicate elimination standing in for Python's `list(set(...))`
(server.py line 362); only the membership of the result matters. -/
def dedup : List String → List String
  | [] => []
  | x :: xs => if x ∈ dedup xs then dedup xs else x :: dedup xs

/-- The reminder deduplication key (server.py line 445). -/
def reminder_key (walk_id tomorrow_date : String) : String :=
  "reminder_sent_" ++ walk_id ++ "_" ++ tomorrow_date

/-- Embedding of `send_walk_reminder` (server.py lines 344-418), reduced to the user ids
the push reminder is addressed to: all distinct holders of an active
booking on the walk (no reminder is pushed when the walk is missing or has
no active bookings). -/
def send_walk_reminder (walks : List WalkDoc) (bookings : List BookingDoc)
    (walk_id : String) : List String :=
  if (walks.find? (fun w => w.walk_id = walk_id)).isSome then
    if ((bookings.filter fun b =>
        b.walk_id = walk_id && b.status = "active").take 1000).isEmpty then []
    else dedup (((bookings.filter fun b =>
        b.walk_id = walk_id && b.status = "active").take 1000).map (·.user_id))
  else []

/-- The per-walk loop of `check_and_send_24h_reminders` (server.py lines
443-462): walks already recorded in `reminders_sent` are skipped; for the
others the reminder is sent and the key inserted, and later iterations see
that insertion.  Returns the list of (walk_id, pushed user ids) pairs and
the final `reminders_sent` key set. -/
def reminders_loop (walks : List WalkDoc) (bookings : List BookingDoc)
    (tomorrow_date : String) :
    List WalkDoc → List String → List (String × List String) × List String
  | [], sent => ([], sent)
  | w :: ws, sent =>
    let key := reminder_key w.walk_id tomorrow_date
    if key ∈ sent then reminders_loop walks bookings tomorrow_date ws sent
    else
      let rest := reminders_loop walks bookings tomorrow_date ws (sent ++ [key])
      ((w.walk_id, send_walk_reminder walks bookings w.walk_id) :: rest.1, rest.2)

/-- Embedding of `check_and_send_24h_reminders` (server.py lines 421-465) with the
target date (tomorrow, formatted YYYY-MM-DD) passed in: selects the walks
dated tomorrow and runs the reminder loop over them. -/
def check_and_send_24h_reminders (walks : List WalkDoc)
    (bookings : List BookingDoc) (tomorrow_date : String)
    (sent : List String) : List (String × List String) × List String :=
  reminders_loop walks bookings tomorrow_date
    ((walks.filter fun w => w.date = tomorrow_date).take 1000) sent

/-- A `db.push_tokens` document. -/
structure PushTokenDoc where
  user_id : String
  push_token : Option String := none
  active : Bool := true
  deriving Repr, DecidableEq

/-- A `db.retention_notifications` record. -/
structure RetentionRecord where
  user_id : String
  sent_at : Int
  deriving Repr, DecidableEq

/-- Python `timedelta(days=3)` in seconds. -/
def threeDaysSec : Int := 3 * 86400

/-- Embedding of `send_retention_notification` (server.py lines 558-653), reduced to
whether a push was delivered and the updated `retention_notifications`
records.  `publishOk` models whether the external push gateway accepts the
publish for that user (on failure nothing is recorded); message selection
(weather/stats/motivational) does not affect who is notified. -/
def send_retention_notification (tokens : List PushTokenDoc)
    (recs : List RetentionRecord) (now : Int) (publishOk : String → Bool)
    (u : UserDoc) : Bool × List RetentionRecord :=
  if (tokens.find? (fun t => t.user_id = u.user_id)).bind
       (fun td => td.push_token) = none ∨
     (tokens.find? (fun t => t.user_id = u.user_id)).bind
       (fun td => td.push_token) = some "" then (false, recs)
  else if recs.any (fun r => r.user_id = u.user_id &&
                             now - threeDaysSec ≤ r.sent_at) then
    (false, recs)
  else if publishOk u.user_id then
    (true, recs ++ [⟨u.user_id, now⟩])
  else (false, recs)

/-- The Mongo selection of `check_and_send_retention_notifications`
(server.py lines 665-671): no `lastLoginAt` or one more than three days
old, and `notifications_enabled` not equal to `False`. -/
def retention_inactive_pred (now : Int) (u : UserDoc) : Bool :=
  (match u.lastLoginAt with
   | none => true
   | some t => decide (t < now - threeDaysSec)) &&
  u.notifications_enabled ≠ some false

/-- The inactive users a retention run considers:
`to_list(length=100)` caps the selection at 100 documents. -/
def retention_considered (users : List UserDoc) (now : Int) : List UserDoc :=
  (users.filter (retention_inactive_pred now)).take 100

/-- The per-user loop of `check_and_send_retention_notifications`
(server.py lines 676-682), threading the records inserted by earlier
iterations; returns the user ids pushed and the final records. -/
def retention_loop (tokens : List PushTokenDoc) (now : Int)
    (publishOk : String → Bool) :
    List UserDoc → List RetentionRecord → List String × List RetentionRecord
  | [], recs => ([], recs)
  | u :: us, recs =>
    ((if (send_retention_notification tokens recs now publishOk u).1 then
        [u.user_id] else []) ++
      (retention_loop tokens now publishOk us
        (send_retention_notification tokens recs now publishOk u).2).1,
     (retention_loop tokens now publishOk us
       (send_retention_notification tokens recs now publishOk u).2).2)

/-- Embedding of `check_and_send_retention_notifications` (server.py lines 656-687). -/
def check_and_send_retention_notifications (users : List UserDoc)
    (tokens : List PushTokenDoc) (recs : List RetentionRecord) (now : Int)
    (publishOk : String → Bool) : List String × List RetentionRecord :=
  retention_loop tokens now publishOk (retention_considered users now) recs

/-- Python `str.replace(pat, rep)` on character lists, fuel-bounded for
structural recursion; `fuel = length of the string` always suffices since a
non-empty pattern consumes at least one character per step. -/
def replaceAllAux : Nat → List Char → List Char → List Char → List Char
  | 0, _, _, l => l
  | _, _, _, [] => []
  | fuel + 1, pat, rep, c :: rest =>
    if pat ≠ [] ∧ pat.isPrefixOf (c :: rest) then
      rep ++ replaceAllAux fuel pat rep ((c :: rest).drop pat.length)
    else c :: replaceAllAux fuel pat rep rest

/-- Python `s.replace(pat, rep)`. -/
def pyReplace (s pat rep : String) : String :=
  ⟨replaceAllAux s.data.length pat.data rep.data s.data⟩

/-- Embedding of `get_session_token` (server.py lines 943-955): a truthy
`session_token` cookie wins; otherwise a non-empty `Authorization` header
starting with `Bearer ` yields the header with every `"Bearer "` removed
(Python's `replace`); otherwise there is no token. -/
def get_session_token (cookie authHeader : Option String) : Option String :=
  match cookie with
  | some t =>
    if t ≠ "" then some t
    else match authHeader with
      | some h =>
        if h ≠ "" ∧ "Bearer ".data.isPrefixOf h.data then
          some (pyReplace h "Bearer " "")
        else none
      | none => none
  | none =>
    match authHeader with
    | some h =>
      if h ≠ "" ∧ "Bearer ".data.isPrefixOf h.data then
        some (pyReplace h "Bearer " "")
      else none
    | none => none

/-- A `db.user_sessions` document; `expires_at` is a UTC timestamp in
seconds (naive datetimes are interpreted as UTC by the code). -/
structure SessionDoc where
  session_token : String
  user_id : String
  expires_at : Int
  deriving Repr, DecidableEq

/-- Outcome of a request-scoped dependency: an HTTP error (status code and
detail) or the authenticated user. -/
inductive AuthResult where
  | http (code : Nat) (detail : String)
  | ok (u : UserDoc)
  deriving Repr, DecidableEq

/-- Embedding of `get_current_user` (server.py lines 957-994). -/
def get_current_user (sessions : List SessionDoc) (users : List UserDoc)
    (now : Int) (cookie authHeader : Option String) : AuthResult :=
  match get_session_token cookie authHeader with
  | none => .http 401 "Not authenticated"
  | some tok =>
    match sessions.find? (fun s => s.session_token = tok) with
    | none => .http 401 "Invalid session"
    | some session =>
      if session.expires_at < now then .http 401 "Session expired"
      else
        match users.find? (fun u => u.user_id = session.user_id) with
        | none => .http 404 "User not found"
        | some u =>
          let user_status := u.status.getD "active"
          if user_status = "blocked" then
            .http 403 "Your account has been blocked. Please contact support."
          else if user_status = "suspended" then
            .http 403 "Your account has been temporarily suspended. Please contact support."
          else .ok u

/-- Active bookings of a walk (`db.bookings.count_documents` with
`walk_id` and `status: "active"`, server.py lines 2422-2425). -/
def count_active (bookings : List BookingDoc) (walk_id : String) : Nat :=
  (bookings.filter fun b => b.walk_id = walk_id && b.status = "active").length

/-- Embedding of `create_booking` (server.py lines 2409-2451): 404 when the walk is
missing, 400 at the hard limit of 10 active bookings (checked before
anything else about the user, and independent of `max_participants`),
400 on a duplicate active booking, otherwise insert. -/
def create_booking (walks : List WalkDoc) (bookings : List BookingDoc)
    (user : UserDoc) (walk_id booking_id : String) (now : Int) :
    Except (Nat × String) (List BookingDoc × BookingDoc) :=
  if (walks.find? (fun w => w.walk_id = walk_id)).isSome then
    if 10 ≤ count_active bookings walk_id then
      .error (400, "This walk has reached the maximum limit of 10 participants")
    else if bookings.any (fun b => b.walk_id = walk_id &&
             b.user_id = user.user_id && b.status = "active") then
      .error (400, "Already booked this walk")
    else
      let booking : BookingDoc :=
        { booking_id := booking_id, walk_id := walk_id,
          user_id := user.user_id, user_name := user.name,
          user_email := user.email, booked_at := now, status := "active" }
      .ok (bookings ++ [booking], booking)
  else .error (404, "Walk not found")

/-- The age-band classification of `get_admin_statistics`
(server.py lines 3446-3465): Python's `if age:` makes a missing or zero
age fall to "Unknown"; any other age is bucketed by upper bounds alone. -/
def users_age_group_pos (a : Int) : String :=
  if a = 0 then "Unknown"
  else if a < 25 then "18-24"
  else if a < 35 then "25-34"
  else if a < 45 then "35-44"
  else if a < 55 then "45-54"
  else if a < 65 then "55-64"
  else if a < 75 then "65-74"
  else "75+"

/-- Wrapper covering Python's `if age:` falsiness for a missing age. -/
def users_age_group (age : Option Int) : String :=
  match age with
  | none => "Unknown"
  | some a => users_age_group_pos a

/-- Transcription of claim C1's selection criterion, for comparison with
`notify_targets`: notifications enabled, same city, not the organizer,
normalized user sex among the normalized walk sex conditions whenever the
walk lists sex conditions, and the age-band condition whenever the walk
lists age groups. -/
def claim1_target_pred (walk : WalkDoc) (u : UserDoc) : Bool :=
  u.notifications_enabled = some true &&
  u.city = some walk.city &&
  u.user_id ≠ walk.organizer_id &&
  (walk.sex_conds.isEmpty ||
   (match normalize_sexO u.sex with
    | some s => (normalize_sex_list walk.sex_conds).contains s
    | none => false)) &&
  (walk.age_groups.isEmpty || age_filter walk.age_groups u)

/-- The amended selection criterion for C1: the sex filter compares the
user's *stored* sex value against the recognized spellings of the
normalized walk conditions, and is skipped entirely when that expansion is
empty (in particular when no condition normalizes to M, F or X). -/
def amended1_target_pred (walk : WalkDoc) (u : UserDoc) : Bool :=
  u.notifications_enabled = some true &&
  u.city = some walk.city &&
  u.user_id ≠ walk.organizer_id &&
  ((sex_match_values (normalize_sex_list walk.sex_conds)).isEmpty ||
   (match u.sex with
    | some s => (sex_match_values (normalize_sex_list walk.sex_conds)).contains s
    | none => false)) &&
  (walk.age_groups.isEmpty || age_filter walk.age_groups u)

/-- A user whose stored sex is the lowercase spelling `"male"`. -/
def c1User : UserDoc :=
  { user_id := "u1", name := "Lou", email := "lou@example.com",
    city := some "Paris", sex := some "male" }

/-- A walk in the same city whose conditions list sex `"M"`. -/
def c1Walk : WalkDoc :=
  { walk_id := "w1", city := "Paris", organizer_id := "org",
    sex_conds := ["M"] }

/-- A walk `w9` whose `max_participants` is 50, used to instantiate the
C9 theorem. -/
def c9Walks : List WalkDoc :=
  [{ walk_id := "w9", city := "Paris", organizer_id := "org",
     max_participants := 50 }]

/-- Ten active bookings on `w9`. -/
def c9Bookings : List BookingDoc :=
  (List.range 10).map fun i =>
    { booking_id := "b" ++ toString i, walk_id := "w9",
      user_id := "u" ++ toString i }

/-- The user attempting the eleventh booking. -/
def c9User : UserDoc := { user_id := "u99" }

/-- An inactive user (no `lastLoginAt`), used to instantiate the C4
theorem. -/
def c4User : UserDoc := { user_id := "u1" }

/-- A registered push token for `u1`. -/
def c4Tokens : List PushTokenDoc := [{ user_id := "u1", push_token := some "tok" }]

/-- A walk scheduled for 2026-10-13, used to instantiate the C2 theorem. -/
def c2Walks : List WalkDoc :=
  [{ walk_id := "w1", date := "2026-10-13", city := "Paris",
     organizer_id := "org" }]

/-- One active booking on `w1`. -/
def c2Bookings : List BookingDoc :=
  [{ booking_id := "b1", walk_id := "w1", user_id := "u1" }]

/-- 1001 walks, all dated 2026-10-13: one more than the reminder job's
walk fetch cap (1000 copies of walk `a` followed by walk `b`). -/
def c2BigWalks : List WalkDoc :=
  List.replicate 1000 { walk_id := "a", date := "2026-10-13" } ++
    [{ walk_id := "b", date := "2026-10-13" }]

/-! ### Helper lemmas -/

theorem filter_filter_and {α : Type} (p q : α → Bool) (l : List α) :
    (l.filter p).filter q = l.filter fun a => p a && q a := by
  induction l with
  | nil => rfl
  | cons a l ih =>
    by_cases hp : p a <;> by_cases hq : q a <;>
      simp [List.filter_cons, hp, hq, ih]

theorem amended1_pointwise (walk : WalkDoc) (u : UserDoc) :
    amended1_target_pred walk u =
      (base_query_matches walk (sex_match_values (normalize_sex_list walk.sex_conds)) u &&
       (walk.age_groups.isEmpty || age_filter walk.age_groups u)) := by
  simp only [amended1_target_pred, base_query_matches, Bool.and_assoc]

/-! ### Claims -/

/-- C1 (counterexample): a user whose stored sex is the lowercase
spelling `"male"` satisfies the claimed criterion for a walk requiring
`"M"` — their sex normalizes to `M`, which is among the walk's normalized
conditions — yet `notify_previous_participants` selects nobody, because
the Mongo query compares the stored value against the exact spellings
`"M"` and `"Male"` only. -/
theorem claim1_counterexample :
    claim1_target_pred c1Walk c1User = true ∧
    notify_targets [c1User] c1Walk = [] := by
  constructor
  · decide
  · decide

/-- C1 (amended): provided at most 10000 users match the base query (the
fetch cap of `.to_list(10000)`), `notify_previous_participants` alerts
exactly the users with notifications enabled, in the walk's city, other
than the organizer, whose stored sex value is among the recognized
spellings of the normalized walk sex conditions (the sex filter being
skipped when that expansion is empty), and matching an age band when age
groups are listed; the neighborhood field plays no role in the
selection. -/
theorem claim1_amended_targets (users : List UserDoc) (walk : WalkDoc)
    (hcap : (users.filter (base_query_matches walk
      (sex_match_values (normalize_sex_list walk.sex_conds)))).length ≤ 10000) :
    notify_targets users walk = users.filter (amended1_target_pred walk) ∧
    ∀ (u : UserDoc) (n : Option String),
      amended1_target_pred walk { u with neighborhood := n } =
      amended1_target_pred walk u := by
  constructor
  · unfold notify_targets
    rw [List.take_of_length_le hcap]
    by_cases h : walk.age_groups.isEmpty
    · simp only [h, if_true]
      refine (List.filter_congr ?_).symm
      intro u _
      simp [amended1_pointwise, h]
    · simp only [h, if_false]
      rw [filter_filter_and]
      refine (List.filter_congr ?_).symm
      intro u _
      simp [amended1_pointwise, h]
  · intro u n
    rfl

/-- Witness for C1's amended theorem at a singleton user list, where the
fetch cap is not reached. -/
theorem claim1_amended_targets_witness :
    ([c1User].filter (base_query_matches c1Walk
      (sex_match_values (normalize_sex_list c1Walk.sex_conds)))).length ≤ 10000 ∧
    notify_targets [c1User] c1Walk =
      [c1User].filter (amended1_target_pred c1Walk) :=
  ⟨by decide, (claim1_amended_targets [c1User] c1Walk (by decide)).1⟩

theorem age_group_match_cases (g : String) (a : Int)
    (h : age_group_match g a = true) :
    (g = "18-24" ∧ 18 ≤ a ∧ a ≤ 24) ∨
    (g = "25-34" ∧ 25 ≤ a ∧ a ≤ 34) ∨
    (g = "35-44" ∧ 35 ≤ a ∧ a ≤ 44) ∨
    (g = "45-54" ∧ 45 ≤ a ∧ a ≤ 54) ∨
    (g = "55-64" ∧ 55 ≤ a ∧ a ≤ 64) ∨
    (g = "65-74" ∧ 65 ≤ a ∧ a ≤ 74) ∨
    (g = "75+" ∧ 75 ≤ a) := by
  unfold age_group_match at h
  split_ifs at h with h1 h2 h3 h4 h5 h6 h7 <;>
    simp only [decide_eq_true_eq] at h
  · exact Or.inl ⟨h1, h⟩
  · exact Or.inr (Or.inl ⟨h2, h⟩)
  · exact Or.inr (Or.inr (Or.inl ⟨h3, h⟩))
  · exact Or.inr (Or.inr (Or.inr (Or.inl ⟨h4, h⟩)))
  · exact Or.inr (Or.inr (Or.inr (Or.inr (Or.inl ⟨h5, h⟩))))
  · exact Or.inr (Or.inr (Or.inr (Or.inr (Or.inr (Or.inl ⟨h6, h⟩)))))
  · exact Or.inr (Or.inr (Or.inr (Or.inr (Or.inr (Or.inr ⟨h7, h⟩)))))

/-- C5: the seven age bands of the targeting engine are non-overlapping:
no integer age satisfies the matching predicate of two distinct bands. -/
theorem age_bands_disjoint (a : Int) (g₁ g₂ : String)
    (h₁ : age_group_match g₁ a = true) (h₂ : age_group_match g₂ a = true) :
    g₁ = g₂ := by
  rcases age_group_match_cases g₁ a h₁ with
    ⟨rfl, hr⟩ | ⟨rfl, hr⟩ | ⟨rfl, hr⟩ | ⟨rfl, hr⟩ | ⟨rfl, hr⟩ | ⟨rfl, hr⟩ | ⟨rfl, hr⟩ <;>
  rcases age_group_match_cases g₂ a h₂ with
    ⟨rfl, hs⟩ | ⟨rfl, hs⟩ | ⟨rfl, hs⟩ | ⟨rfl, hs⟩ | ⟨rfl, hs⟩ | ⟨rfl, hs⟩ | ⟨rfl, hs⟩ <;>
  first | rfl | omega

/-- Witness for C5 at age 30 and band "25-34". -/
theorem age_bands_disjoint_witness :
    age_group_match "25-34" 30 = true ∧ ("25-34" : String) = "25-34" :=
  ⟨by decide, age_bands_disjoint 30 "25-34" "25-34" (by decide) (by decide)⟩

/-- C10 (counterexample): the admin statistics bucket a 17-year-old into
"18-24" (any truthy age below 25 lands there), but the targeting engine's
"18-24" predicate rejects age 17. -/
theorem claim10_counterexample :
    users_age_group (some 17) = "18-24" ∧
    age_group_match "18-24" 17 = false := by
  constructor
  · decide
  · decide

theorem users_age_group_cases (a : Int) (h0 : ¬ a = 0) :
    (users_age_group (some a) = "18-24" ∧ a < 25) ∨
    (users_age_group (some a) = "25-34" ∧ 25 ≤ a ∧ a < 35) ∨
    (users_age_group (some a) = "35-44" ∧ 35 ≤ a ∧ a < 45) ∨
    (users_age_group (some a) = "45-54" ∧ 45 ≤ a ∧ a < 55) ∨
    (users_age_group (some a) = "55-64" ∧ 55 ≤ a ∧ a < 65) ∨
    (users_age_group (some a) = "65-74" ∧ 65 ≤ a ∧ a < 75) ∨
    (users_age_group (some a) = "75+" ∧ 75 ≤ a) := by
  simp only [users_age_group, users_age_group_pos]
  rw [if_neg h0]
  split_ifs with h1 h2 h3 h4 h5 h6
  · exact Or.inl ⟨rfl, h1⟩
  · exact Or.inr (Or.inl ⟨rfl, by omega, h2⟩)
  · exact Or.inr (Or.inr (Or.inl ⟨rfl, by omega, h3⟩))
  · exact Or.inr (Or.inr (Or.inr (Or.inl ⟨rfl, by omega, h4⟩)))
  · exact Or.inr (Or.inr (Or.inr (Or.inr (Or.inl ⟨rfl, by omega, h5⟩))))
  · exact Or.inr (Or.inr (Or.inr (Or.inr (Or.inr (Or.inl ⟨rfl, by omega, h6⟩)))))
  · exact Or.inr (Or.inr (Or.inr (Or.inr (Or.inr (Or.inr ⟨rfl, by omega⟩)))))

/-- C10 (amended): for ages of at least 18 the admin statistics
classification agrees with the targeting engine: the statistics assign
band `g` exactly when `g`'s matching predicate holds (for truthy ages
below 18 the statistics assign "18-24" though no band matches). -/
theorem users_age_group_agrees_from_18 (a : Int) (ha : 18 ≤ a) (g : String) :
    users_age_group (some a) = g ↔ age_group_match g a = true := by
  constructor
  · intro hg
    rcases users_age_group_cases a (by omega) with
      ⟨he, hr⟩ | ⟨he, hr⟩ | ⟨he, hr⟩ | ⟨he, hr⟩ | ⟨he, hr⟩ | ⟨he, hr⟩ | ⟨he, hr⟩ <;>
      rw [he] at hg <;> subst hg <;> unfold age_group_match
    · rw [if_pos rfl]
      simp only [decide_eq_true_eq]
      omega
    · rw [if_neg (by decide), if_pos rfl]
      simp only [decide_eq_true_eq]
      omega
    · rw [if_neg (by decide), if_neg (by decide), if_pos rfl]
      simp only [decide_eq_true_eq]
      omega
    · rw [if_neg (by decide), if_neg (by decide), if_neg (by decide), if_pos rfl]
      simp only [decide_eq_true_eq]
      omega
    · rw [if_neg (by decide), if_neg (by decide), if_neg (by decide),
          if_neg (by decide), if_pos rfl]
      simp only [decide_eq_true_eq]
      omega
    · rw [if_neg (by decide), if_neg (by decide), if_neg (by decide),
          if_neg (by decide), if_neg (by decide), if_pos rfl]
      simp only [decide_eq_true_eq]
      omega
    · rw [if_neg (by decide), if_neg (by decide), if_neg (by decide),
          if_neg (by decide), if_neg (by decide), if_neg (by decide), if_pos rfl]
      simp only [decide_eq_true_eq]
      omega
  · intro hm
    rcases age_group_match_cases g a hm with
      ⟨rfl, hr⟩ | ⟨rfl, hr⟩ | ⟨rfl, hr⟩ | ⟨rfl, hr⟩ | ⟨rfl, hr⟩ | ⟨rfl, hr⟩ | ⟨rfl, hr⟩ <;>
    · simp only [users_age_group, users_age_group_pos]
      split_ifs <;> first | rfl | omega

/-- C6: `normalize_sex` sends any case/whitespace variant of M or Male to
`M`, of F or Female to `F`, of X, Prefer not to say, N/A or Other to `X`,
returns any other non-empty value unchanged, and is idempotent
(`normalize_sexO` is `normalize_sex` lifted over Python's `None`). -/
theorem normalize_sex_spec (s : String) :
    (s ≠ "" → (pyStrip (pyUpper s) = "M" ∨ pyStrip (pyUpper s) = "MALE") →
      normalize_sex s = some "M") ∧
    (s ≠ "" → (pyStrip (pyUpper s) = "F" ∨ pyStrip (pyUpper s) = "FEMALE") →
      normalize_sex s = some "F") ∧
    (s ≠ "" → (pyStrip (pyUpper s) = "X" ∨
               pyStrip (pyUpper s) = "PREFER NOT TO SAY" ∨
               pyStrip (pyUpper s) = "N/A" ∨
               pyStrip (pyUpper s) = "OTHER") →
      normalize_sex s = some "X") ∧
    (s ≠ "" →
      ¬(pyStrip (pyUpper s) = "M" ∨ pyStrip (pyUpper s) = "MALE") →
      ¬(pyStrip (pyUpper s) = "F" ∨ pyStrip (pyUpper s) = "FEMALE") →
      ¬(pyStrip (pyUpper s) = "X" ∨
        pyStrip (pyUpper s) = "PREFER NOT TO SAY" ∨
        pyStrip (pyUpper s) = "N/A" ∨
        pyStrip (pyUpper s) = "OTHER") →
      normalize_sex s = some s) ∧
    normalize_sexO (normalize_sex s) = normalize_sex s := by
  refine ⟨?_, ?_, ?_, ?_, ?_⟩
  · intro h0 h1
    unfold normalize_sex
    rw [if_neg h0, if_pos h1]
  · intro h0 h2
    unfold normalize_sex
    rw [if_neg h0]
    split_ifs with h1
    · rcases h1 with h1 | h1 <;> rcases h2 with h2 | h2 <;> simp_all
    · rfl
  · intro h0 h3
    unfold normalize_sex
    rw [if_neg h0]
    split_ifs with h1 h2
    · rcases h1 with h1 | h1 <;>
        rcases h3 with h3 | h3 | h3 | h3 <;> simp_all
    · rcases h2 with h2 | h2 <;>
        rcases h3 with h3 | h3 | h3 | h3 <;> simp_all
    · rfl
  · intro h0 h1 h2 h3
    unfold normalize_sex
    rw [if_neg h0, if_neg h1, if_neg h2, if_neg h3]
  · by_cases h0 : s = ""
    · subst h0
      rfl
    · rcases hv : normalize_sex s with _ | v
      · rfl
      · show normalize_sex v = some v
        unfold normalize_sex at hv
        rw [if_neg h0] at hv
        split_ifs at hv with h1 h2 h3
        · injection hv with hv
          subst hv
          decide
        · injection hv with hv
          subst hv
          decide
        · injection hv with hv
          subst hv
          decide
        · injection hv with hv
          subst hv
          unfold normalize_sex
          rw [if_neg h0, if_neg h1, if_neg h2, if_neg h3]

/-- Witness for C6 at the input `" male "`. -/
theorem normalize_sex_spec_witness :
    (" male " : String) ≠ "" ∧ normalize_sex " male " = some "M" :=
  ⟨by decide, (normalize_sex_spec " male ").1 (by decide) (Or.inr (by decide))⟩

/-- Witness for C10's amended claim at age 30 and band "25-34". -/
theorem users_age_group_agrees_witness :
    18 ≤ (30 : Int) ∧
    (users_age_group (some 30) = "25-34" ↔ age_group_match "25-34" 30 = true) :=
  ⟨by decide, users_age_group_agrees_from_18 30 (by decide) "25-34"⟩

theorem take_replicate_append {α : Type} (n : Nat) (a : α) (l : List α) :
    (List.replicate n a ++ l).take n = List.replicate n a := by
  induction n with
  | zero => rfl
  | succ n ih => simp [List.replicate_succ, ih]

theorem mem_dedup (u : String) (l : List String) : u ∈ dedup l ↔ u ∈ l := by
  induction l with
  | nil => simp [dedup]
  | cons x xs ih =>
    unfold dedup
    by_cases h : x ∈ dedup xs
    · rw [if_pos h]
      rw [ih]
      constructor
      · intro hu
        exact List.mem_cons_of_mem x hu
      · intro hu
        rcases List.mem_cons.mp hu with rfl | hu
        · exact ih.mp h
        · exact hu
    · rw [if_neg h]
      simp [ih]

theorem reminder_key_inj (d a b : String)
    (h : reminder_key a d = reminder_key b d) : a = b := by
  unfold reminder_key at h
  have h' : ("reminder_sent_" ++ a ++ "_" ++ d).data =
      ("reminder_sent_" ++ b ++ "_" ++ d).data := by rw [h]
  simp only [String.data_append] at h'
  have h₁ := List.append_cancel_right h'
  have h₂ := List.append_cancel_right h₁
  have h₃ := List.append_cancel_left h₂
  cases a
  cases b
  exact congrArg String.mk h₃

theorem mem_send_walk_reminder (walks : List WalkDoc)
    (bookings : List BookingDoc) (wid : String)
    (hfound : ∃ w ∈ walks, w.walk_id = wid)
    (hcap : (bookings.filter fun b =>
      b.walk_id = wid && b.status = "active").length ≤ 1000) (u : String) :
    u ∈ send_walk_reminder walks bookings wid ↔
      ∃ b ∈ bookings, b.walk_id = wid ∧ b.status = "active" ∧ b.user_id = u := by
  unfold send_walk_reminder
  rw [List.take_of_length_le hcap]
  have hsome : (walks.find? (fun w => w.walk_id = wid)).isSome := by
    rw [List.find?_isSome]
    obtain ⟨w, hw, hwid⟩ := hfound
    exact ⟨w, hw, by simp [hwid]⟩
  rw [if_pos hsome]
  · by_cases hbs : (bookings.filter fun b =>
        b.walk_id = wid && b.status = "active").isEmpty
    · rw [if_pos hbs]
      rw [List.isEmpty_iff] at hbs
      simp only [List.not_mem_nil, false_iff]
      rintro ⟨b, hb, hb1, hb2, hb3⟩
      have : b ∈ bookings.filter fun b => b.walk_id = wid && b.status = "active" := by
        rw [List.mem_filter]
        exact ⟨hb, by simp [hb1, hb2]⟩
      rw [hbs] at this
      exact List.not_mem_nil b this
    · rw [if_neg hbs]
      rw [mem_dedup]
      simp only [List.mem_map, List.mem_filter]
      constructor
      · rintro ⟨b, ⟨hb, hcond⟩, rfl⟩
        simp only [Bool.and_eq_true, decide_eq_true_eq] at hcond
        exact ⟨b, hb, hcond.1, hcond.2, rfl⟩
      · rintro ⟨b, hb, hb1, hb2, hb3⟩
        exact ⟨b, ⟨hb, by simp [hb1, hb2]⟩, hb3⟩

theorem reminders_loop_sent_mem (walks : List WalkDoc)
    (bookings : List BookingDoc) (d : String) (ws : List WalkDoc) :
    ∀ (sent : List String) (k : String),
      k ∈ (reminders_loop walks bookings d ws sent).2 ↔
        k ∈ sent ∨ ∃ w ∈ ws, k = reminder_key w.walk_id d := by
  induction ws with
  | nil =>
    intro sent k
    simp [reminders_loop]
  | cons w ws ih =>
    intro sent k
    unfold reminders_loop
    by_cases h : reminder_key w.walk_id d ∈ sent
    · rw [if_pos h]
      rw [ih]
      constructor
      · rintro (hk | ⟨w', hw', rfl⟩)
        · exact Or.inl hk
        · exact Or.inr ⟨w', List.mem_cons_of_mem w hw', rfl⟩
      · rintro (hk | ⟨w', hw', rfl⟩)
        · exact Or.inl hk
        · rcases List.mem_cons.mp hw' with rfl | hw'
          · exact Or.inl h
          · exact Or.inr ⟨w', hw', rfl⟩
    · rw [if_neg h]
      simp only
      rw [ih]
      simp only [List.mem_append, List.mem_singleton]
      constructor
      · rintro ((hk | rfl) | ⟨w', hw', rfl⟩)
        · exact Or.inl hk
        · exact Or.inr ⟨w, List.mem_cons_self w ws, rfl⟩
        · exact Or.inr ⟨w', List.mem_cons_of_mem w hw', rfl⟩
      · rintro (hk | ⟨w', hw', rfl⟩)
        · exact Or.inl (Or.inl hk)
        · rcases List.mem_cons.mp hw' with rfl | hw'
          · exact Or.inl (Or.inr rfl)
          · exact Or.inr ⟨w', hw', rfl⟩

theorem reminders_loop_fired_sound (walks : List WalkDoc)
    (bookings : List BookingDoc) (d : String) (ws : List WalkDoc) :
    ∀ (sent : List String) (wid : String) (t : List String),
      (wid, t) ∈ (reminders_loop walks bookings d ws sent).1 →
      ∃ w ∈ ws, wid = w.walk_id ∧ reminder_key w.walk_id d ∉ sent ∧
        t = send_walk_reminder walks bookings w.walk_id := by
  induction ws with
  | nil =>
    intro sent wid t h
    simp [reminders_loop] at h
  | cons w ws ih =>
    intro sent wid t h
    unfold reminders_loop at h
    by_cases hk : reminder_key w.walk_id d ∈ sent
    · rw [if_pos hk] at h
      obtain ⟨w', hw', h1, h2, h3⟩ := ih sent wid t h
      exact ⟨w', List.mem_cons_of_mem w hw', h1, h2, h3⟩
    · rw [if_neg hk] at h
      simp only [List.mem_cons] at h
      rcases h with h | h
      · injection h with h1 h2
        exact ⟨w, List.mem_cons_self w ws, h1, hk, h2⟩
      · obtain ⟨w', hw', h1, h2, h3⟩ := ih _ wid t h
        rw [List.mem_append] at h2
        push_neg at h2
        exact ⟨w', List.mem_cons_of_mem w hw', h1, h2.1, h3⟩

theorem reminders_loop_fired_complete (walks : List WalkDoc)
    (bookings : List BookingDoc) (d : String) (ws : List WalkDoc) :
    ∀ (sent : List String) (w : WalkDoc), w ∈ ws →
      (ws.map WalkDoc.walk_id).Nodup →
      reminder_key w.walk_id d ∉ sent →
      (w.walk_id, send_walk_reminder walks bookings w.walk_id)
        ∈ (reminders_loop walks bookings d ws sent).1 := by
  induction ws with
  | nil =>
    intro sent w hw
    simp at hw
  | cons x ws ih =>
    intro sent w hw hnd hks
    have hnd' : (ws.map WalkDoc.walk_id).Nodup := (List.nodup_cons.mp hnd).2
    rcases List.mem_cons.mp hw with rfl | hw
    · unfold reminders_loop
      rw [if_neg hks]
      exact List.mem_cons_self _ _
    · unfold reminders_loop
      by_cases hk : reminder_key x.walk_id d ∈ sent
      · rw [if_pos hk]
        exact ih sent w hw hnd' hks
      · rw [if_neg hk]
        simp only
        refine List.mem_cons_of_mem _ ?_
        refine ih _ w hw hnd' ?_
        rw [List.mem_append, List.mem_singleton]
        push_neg
        refine ⟨hks, fun hkeq => ?_⟩
        have : w.walk_id = x.walk_id := reminder_key_inj d _ _ hkeq
        have hx : x.walk_id ∈ ws.map WalkDoc.walk_id :=
          this ▸ List.mem_map_of_mem WalkDoc.walk_id hw
        exact (List.nodup_cons.mp hnd).1 hx

theorem reminders_loop_all_sent (walks : List WalkDoc)
    (bookings : List BookingDoc) (d : String) (ws : List WalkDoc) :
    ∀ (sent : List String),
      (∀ w ∈ ws, reminder_key w.walk_id d ∈ sent) →
      reminders_loop walks bookings d ws sent = ([], sent) := by
  induction ws with
  | nil =>
    intro sent _
    rfl
  | cons w ws ih =>
    intro sent hall
    unfold reminders_loop
    rw [if_pos (hall w (List.mem_cons_self w ws))]
    exact ih sent fun w' hw' => hall w' (List.mem_cons_of_mem w hw')

/-- C2 (amended): provided at most 1000 walks are dated tomorrow and each
walk has at most 1000 active bookings (the `.to_list(1000)` fetch caps), a
reminder run fires exactly for the walks dated tomorrow with no
`reminders_sent` record keyed to the walk and date, and each fired
reminder is addressed to exactly the users holding an active booking on
that walk. -/
theorem claim2_reminder_run (walks : List WalkDoc) (bookings : List BookingDoc)
    (tomorrow_date : String) (sent : List String)
    (hw : (walks.map WalkDoc.walk_id).Nodup)
    (hwcap : (walks.filter fun w => w.date = tomorrow_date).length ≤ 1000)
    (hbcap : ∀ wi : String, (bookings.filter fun b =>
      b.walk_id = wi && b.status = "active").length ≤ 1000)
    (wid : String) :
    ((∃ t, (wid, t) ∈
        (check_and_send_24h_reminders walks bookings tomorrow_date sent).1) ↔
      ∃ w ∈ walks, w.walk_id = wid ∧ w.date = tomorrow_date ∧
        reminder_key wid tomorrow_date ∉ sent) ∧
    (∀ t, (wid, t) ∈
        (check_and_send_24h_reminders walks bookings tomorrow_date sent).1 →
      ∀ u : String, u ∈ t ↔
        ∃ b ∈ bookings, b.walk_id = wid ∧ b.status = "active" ∧
          b.user_id = u) := by
  have hrun : check_and_send_24h_reminders walks bookings tomorrow_date sent =
      reminders_loop walks bookings tomorrow_date
        (walks.filter fun w => w.date = tomorrow_date) sent := by
    unfold check_and_send_24h_reminders
    rw [List.take_of_length_le hwcap]
  rw [hrun]
  have hnodup : ((walks.filter fun w => w.date = tomorrow_date).map
      WalkDoc.walk_id).Nodup := by
    refine List.Nodup.sublist ?_ hw
    exact List.Sublist.map WalkDoc.walk_id (List.filter_sublist walks)
  constructor
  · constructor
    · rintro ⟨t, ht⟩
      obtain ⟨w, hwmem, h1, h2, -⟩ :=
        reminders_loop_fired_sound walks bookings tomorrow_date _ sent wid t ht
      rw [List.mem_filter] at hwmem
      refine ⟨w, hwmem.1, h1.symm, by simpa using hwmem.2, ?_⟩
      rw [h1]
      exact h2
    · rintro ⟨w, hwmem, rfl, hdate, hkey⟩
      refine ⟨send_walk_reminder walks bookings w.walk_id, ?_⟩
      refine reminders_loop_fired_complete walks bookings tomorrow_date _
        sent w ?_ hnodup hkey
      rw [List.mem_filter]
      exact ⟨hwmem, by simp [hdate]⟩
  · intro t ht u
    obtain ⟨w, hwmem, h1, -, h3⟩ :=
      reminders_loop_fired_sound walks bookings tomorrow_date _ sent wid t ht
    rw [List.mem_filter] at hwmem
    subst h3
    rw [h1]
    exact mem_send_walk_reminder walks bookings w.walk_id
      ⟨w, hwmem.1, rfl⟩ (hbcap w.walk_id) u

/-- C2 (counterexample): with 1001 walks dated tomorrow and an empty
`reminders_sent` store, walk `b` is dated tomorrow and has no reminder
record, yet no reminder for it is fired: the `.to_list(1000)` fetch cap
keeps only the first 1000 walks of the day.  (The 1000 padding walks
share an id, which only affects their own skipping; walk `b` goes
unfired purely because the fetch cap excludes it.) -/
theorem claim2_counterexample :
    (∃ w ∈ c2BigWalks, w.walk_id = "b" ∧ w.date = "2026-10-13" ∧
      reminder_key "b" "2026-10-13" ∉ ([] : List String)) ∧
    ∀ t, ("b", t) ∉
      (check_and_send_24h_reminders c2BigWalks [] "2026-10-13" []).1 := by
  constructor
  · refine ⟨{ walk_id := "b", date := "2026-10-13" }, ?_, rfl, rfl, by simp⟩
    exact List.mem_append_right _ (List.mem_singleton_self _)
  · intro t ht
    obtain ⟨w, hwmem, h1, -, -⟩ :=
      reminders_loop_fired_sound c2BigWalks [] "2026-10-13" _ [] "b" t ht
    have hfilter : c2BigWalks.filter (fun w => w.date = "2026-10-13") =
        c2BigWalks := by
      rw [List.filter_eq_self]
      intro a ha
      rcases List.mem_append.mp ha with h | h
      · rw [List.eq_of_mem_replicate h]
        decide
      · rw [List.mem_singleton.mp h]
        decide
    have htake : (c2BigWalks.filter fun w => w.date = "2026-10-13").take 1000 =
        List.replicate 1000
          ({ walk_id := "a", date := "2026-10-13" } : WalkDoc) := by
      rw [hfilter]
      unfold c2BigWalks
      exact take_replicate_append 1000 _ _
    rw [htake] at hwmem
    rw [List.eq_of_mem_replicate hwmem] at h1
    exact absurd h1 (by decide)

/-- Witness for C2's amended theorem: with one walk dated tomorrow, one
active booking and an empty `reminders_sent` store, the caps hold and the
run fires for that walk. -/
theorem claim2_reminder_run_witness :
    (c2Walks.map WalkDoc.walk_id).Nodup ∧
    (c2Walks.filter fun w => w.date = "2026-10-13").length ≤ 1000 ∧
    (∀ wi : String, (c2Bookings.filter fun b =>
      b.walk_id = wi && b.status = "active").length ≤ 1000) ∧
    ∃ t, ("w1", t) ∈
      (check_and_send_24h_reminders c2Walks c2Bookings "2026-10-13" []).1 :=
  ⟨by decide, by decide,
    fun _ => le_trans (List.length_filter_le _ _) (by decide),
    (claim2_reminder_run c2Walks c2Bookings "2026-10-13" [] (by decide)
        (by decide)
        (fun _ => le_trans (List.length_filter_le _ _) (by decide)) "w1").1.mpr
      ⟨{ walk_id := "w1", date := "2026-10-13", city := "Paris",
         organizer_id := "org" },
        by decide, rfl, rfl, by decide⟩⟩

/-- C3: the 24h reminder job is idempotent within a day: a second run with
the same target date fires no reminder and inserts no `reminders_sent`
record. -/
theorem claim3_reminders_idempotent (walks : List WalkDoc)
    (bookings : List BookingDoc) (tomorrow_date : String)
    (sent : List String) :
    check_and_send_24h_reminders walks bookings tomorrow_date
        (check_and_send_24h_reminders walks bookings tomorrow_date sent).2 =
      ([], (check_and_send_24h_reminders walks bookings tomorrow_date sent).2) := by
  unfold check_and_send_24h_reminders
  refine reminders_loop_all_sent walks bookings tomorrow_date _ _ ?_
  intro w hwmem
  rw [reminders_loop_sent_mem]
  exact Or.inr ⟨w, hwmem, rfl⟩

theorem send_retention_mono (tokens : List PushTokenDoc)
    (recs : List RetentionRecord) (now : Int) (ok : String → Bool)
    (u : UserDoc) (r : RetentionRecord) (hr : r ∈ recs) :
    r ∈ (send_retention_notification tokens recs now ok u).2 := by
  unfold send_retention_notification
  split_ifs <;> first | exact hr | exact List.mem_append_left _ hr

theorem send_retention_true (tokens : List PushTokenDoc)
    (recs : List RetentionRecord) (now : Int) (ok : String → Bool)
    (u : UserDoc)
    (h : (send_retention_notification tokens recs now ok u).1 = true) :
    (send_retention_notification tokens recs now ok u).2 =
      recs ++ [⟨u.user_id, now⟩] ∧
    (∃ td, tokens.find? (fun t => t.user_id = u.user_id) = some td ∧
       ∃ tok, td.push_token = some tok ∧ tok ≠ "") ∧
    recs.any (fun r => r.user_id = u.user_id &&
      now - threeDaysSec ≤ r.sent_at) = false := by
  unfold send_retention_notification at h ⊢
  split_ifs at h ⊢ with h1 h2 h3
  all_goals simp at h
  push_neg at h1
  obtain ⟨tok, htok⟩ := Option.ne_none_iff_exists'.mp h1.1
  obtain ⟨td, hfind, hpush⟩ := Option.bind_eq_some.mp htok
  refine ⟨rfl, ⟨td, hfind, tok, hpush, fun habs => ?_⟩, ?_⟩
  · exact h1.2 (habs ▸ htok)
  · simp only [Bool.not_eq_true] at h2
    exact h2

theorem send_retention_false_recent (tokens : List PushTokenDoc)
    (recs : List RetentionRecord) (now : Int) (ok : String → Bool)
    (u : UserDoc)
    (h : recs.any (fun r => r.user_id = u.user_id &&
      now - threeDaysSec ≤ r.sent_at) = true) :
    send_retention_notification tokens recs now ok u = (false, recs) := by
  unfold send_retention_notification
  split_ifs with h1 h2 h3 <;> first | rfl | simp_all

theorem send_retention_false_snd (tokens : List PushTokenDoc)
    (recs : List RetentionRecord) (now : Int) (ok : String → Bool)
    (u : UserDoc)
    (h : (send_retention_notification tokens recs now ok u).1 = false) :
    (send_retention_notification tokens recs now ok u).2 = recs := by
  unfold send_retention_notification at h ⊢
  split_ifs at h ⊢ <;> first | rfl | simp at h

theorem retention_loop_cons_fst (tokens : List PushTokenDoc) (now : Int)
    (ok : String → Bool) (u : UserDoc) (us : List UserDoc)
    (recs : List RetentionRecord) :
    (retention_loop tokens now ok (u :: us) recs).1 =
      (if (send_retention_notification tokens recs now ok u).1 then
        [u.user_id] else []) ++
      (retention_loop tokens now ok us
        (send_retention_notification tokens recs now ok u).2).1 := rfl

theorem retention_loop_cons_snd (tokens : List PushTokenDoc) (now : Int)
    (ok : String → Bool) (u : UserDoc) (us : List UserDoc)
    (recs : List RetentionRecord) :
    (retention_loop tokens now ok (u :: us) recs).2 =
      (retention_loop tokens now ok us
        (send_retention_notification tokens recs now ok u).2).2 := rfl

theorem retention_loop_mono (tokens : List PushTokenDoc) (now : Int)
    (ok : String → Bool) (us : List UserDoc) :
    ∀ (recs : List RetentionRecord) (r : RetentionRecord), r ∈ recs →
      r ∈ (retention_loop tokens now ok us recs).2 := by
  induction us with
  | nil =>
    intro recs r hr
    exact hr
  | cons u us ih =>
    intro recs r hr
    rw [retention_loop_cons_snd]
    exact ih _ r (send_retention_mono tokens recs now ok u r hr)

theorem retention_loop_skip (tokens : List PushTokenDoc) (now : Int)
    (ok : String → Bool) (us : List UserDoc) :
    ∀ (recs : List RetentionRecord) (uid : String),
      (∃ r ∈ recs, r.user_id = uid ∧ now - threeDaysSec ≤ r.sent_at) →
      uid ∉ (retention_loop tokens now ok us recs).1 := by
  induction us with
  | nil =>
    intro recs uid _
    simp [retention_loop]
  | cons u us ih =>
    intro recs uid hrec habs
    rw [retention_loop_cons_fst, List.mem_append] at habs
    rcases habs with habs | habs
    · by_cases he : u.user_id = uid
      · have hany : recs.any (fun r => r.user_id = u.user_id &&
            now - threeDaysSec ≤ r.sent_at) = true := by
          obtain ⟨r, hr, h1, h2⟩ := hrec
          rw [List.any_eq_true]
          exact ⟨r, hr, by simp [h1, he, h2]⟩
        rw [send_retention_false_recent tokens recs now ok u hany] at habs
        simp at habs
      · rcases hs : (send_retention_notification tokens recs now ok u).1 with _ | _
        · rw [hs] at habs
          simp at habs
        · rw [hs] at habs
          simp at habs
          exact he habs.symm
    · obtain ⟨r, hr, h1, h2⟩ := hrec
      refine ih _ uid ⟨r, ?_, h1, h2⟩ habs
      exact send_retention_mono tokens recs now ok u r hr

theorem retention_loop_count (tokens : List PushTokenDoc) (now : Int)
    (ok : String → Bool) (us : List UserDoc) :
    ∀ (recs : List RetentionRecord) (uid : String),
      ((retention_loop tokens now ok us recs).1.count uid) ≤ 1 := by
  induction us with
  | nil =>
    intro recs uid
    simp [retention_loop]
  | cons u us ih =>
    intro recs uid
    rw [retention_loop_cons_fst]
    rcases hs : (send_retention_notification tokens recs now ok u).1 with _ | _
    · simp only [Bool.false_eq_true, if_false, List.nil_append]
      exact ih _ uid
    · simp only [if_true, List.singleton_append]
      obtain ⟨h2, -, -⟩ := send_retention_true tokens recs now ok u hs
      by_cases he : uid = u.user_id
      · subst he
        rw [List.count_cons_self]
        have hnot : u.user_id ∉ (retention_loop tokens now ok us
            (send_retention_notification tokens recs now ok u).2).1 := by
          refine retention_loop_skip tokens now ok us _ u.user_id
            ⟨⟨u.user_id, now⟩, ?_, rfl, by
              show now - threeDaysSec ≤ now
              unfold threeDaysSec
              omega⟩
          rw [h2]
          exact List.mem_append_right _ (List.mem_singleton_self _)
        rw [List.count_eq_zero.mpr hnot]
      · rw [List.count_cons_of_ne he]
        exact ih _ uid

theorem retention_loop_sent_props (tokens : List PushTokenDoc) (now : Int)
    (ok : String → Bool) (us : List UserDoc) :
    ∀ (recs : List RetentionRecord) (uid : String),
      uid ∈ (retention_loop tokens now ok us recs).1 →
      (∃ td, tokens.find? (fun t => t.user_id = uid) = some td ∧
         ∃ tok, td.push_token = some tok ∧ tok ≠ "") ∧
      (∀ r ∈ recs, r.user_id = uid → r.sent_at < now - threeDaysSec) ∧
      (⟨uid, now⟩ : RetentionRecord) ∈ (retention_loop tokens now ok us recs).2 := by
  induction us with
  | nil =>
    intro recs uid h
    simp [retention_loop] at h
  | cons u us ih =>
    intro recs uid h
    rw [retention_loop_cons_fst, List.mem_append] at h
    rw [retention_loop_cons_snd]
    rcases hs : (send_retention_notification tokens recs now ok u).1 with _ | _
    · rw [hs] at h
      simp only [Bool.false_eq_true, if_false, List.not_mem_nil, false_or] at h
      have hsnd := send_retention_false_snd tokens recs now ok u hs
      rw [hsnd] at h ⊢
      exact ih _ uid h
    · rw [hs] at h
      simp only [if_true, List.mem_singleton] at h
      obtain ⟨h2, ⟨td, hfind, tokprops⟩, hany⟩ :=
        send_retention_true tokens recs now ok u hs
      rcases h with rfl | h
      · refine ⟨⟨td, hfind, tokprops⟩, ?_, ?_⟩
        · intro r hr hruid
          by_contra hge
          push_neg at hge
          have : recs.any (fun r => r.user_id = u.user_id &&
              now - threeDaysSec ≤ r.sent_at) = true := by
            rw [List.any_eq_true]
            exact ⟨r, hr, by simp [hruid, hge]⟩
          rw [this] at hany
          exact Bool.true_eq_false.mp hany
        · refine retention_loop_mono tokens now ok us _ _ ?_
          rw [h2]
          exact List.mem_append_right _ (List.mem_singleton_self _)
      · obtain ⟨hfind', hold, hmem⟩ := ih _ uid h
        refine ⟨hfind', ?_, hmem⟩
        intro r hr hruid
        refine hold r ?_ hruid
        exact send_retention_mono tokens recs now ok u r hr

/-- C4: a retention run considers at most 100 users, all of them inactive
for 3+ days (or never logged in) with notifications not disabled; it sends
at most one retention push per user; every pushed user had a non-empty
registered push token and no `retention_notifications` record within the
last 3 days; and a user pushed now is not pushed again by any later run
within 3 days that starts from the records this run produced. -/
theorem claim4_retention_job (users : List UserDoc)
    (tokens : List PushTokenDoc) (recs : List RetentionRecord) (now : Int)
    (publishOk : String → Bool) :
    (retention_considered users now).length ≤ 100 ∧
    (∀ u ∈ retention_considered users now,
       (u.lastLoginAt = none ∨
        ∃ t, u.lastLoginAt = some t ∧ t < now - threeDaysSec) ∧
       u.notifications_enabled ≠ some false) ∧
    (∀ uid : String,
       ((check_and_send_retention_notifications users tokens recs now
           publishOk).1.count uid) ≤ 1) ∧
    (∀ uid : String,
       uid ∈ (check_and_send_retention_notifications users tokens recs now
           publishOk).1 →
       (∃ td ∈ tokens, td.user_id = uid ∧
          ∃ tok, td.push_token = some tok ∧ tok ≠ "") ∧
       ¬∃ r ∈ recs, r.user_id = uid ∧ now - threeDaysSec ≤ r.sent_at) ∧
    (∀ (users₂ : List UserDoc) (tokens₂ : List PushTokenDoc) (now₂ : Int)
       (publishOk₂ : String → Bool) (uid : String),
       now₂ ≤ now + threeDaysSec →
       uid ∈ (check_and_send_retention_notifications users tokens recs now
           publishOk).1 →
       uid ∉ (check_and_send_retention_notifications users₂ tokens₂
               (check_and_send_retention_notifications users tokens recs now
                 publishOk).2 now₂ publishOk₂).1) := by
  refine ⟨?_, ?_, ?_, ?_, ?_⟩
  · unfold retention_considered
    exact List.length_take_le 100 _
  · intro u hu
    have hu' : u ∈ users.filter (retention_inactive_pred now) :=
      List.mem_of_mem_take hu
    rw [List.mem_filter] at hu'
    have pred := hu'.2
    unfold retention_inactive_pred at pred
    rw [Bool.and_eq_true] at pred
    constructor
    · rcases hl : u.lastLoginAt with _ | t
      · exact Or.inl rfl
      · right
        refine ⟨t, rfl, ?_⟩
        have p1 := pred.1
        rw [hl] at p1
        simpa using p1
    · have p2 := pred.2
      simpa using p2
  · intro uid
    exact retention_loop_count tokens now publishOk _ recs uid
  · intro uid hmem
    obtain ⟨⟨td, hfind, tok, hpush, htok⟩, hold, -⟩ :=
      retention_loop_sent_props tokens now publishOk _ recs uid hmem
    refine ⟨⟨td, List.mem_of_find?_eq_some hfind, ?_, tok, hpush, htok⟩, ?_⟩
    · have := List.find?_some hfind
      simpa using this
    · rintro ⟨r, hr, hru, hge⟩
      have := hold r hr hru
      omega
  · intro users₂ tokens₂ now₂ publishOk₂ uid hwin hmem
    obtain ⟨-, -, hrec⟩ :=
      retention_loop_sent_props tokens now publishOk _ recs uid hmem
    refine retention_loop_skip tokens₂ now₂ publishOk₂ _ _ uid
      ⟨⟨uid, now⟩, hrec, rfl, ?_⟩
    show now₂ - threeDaysSec ≤ now
    omega

/-- Witness for C4: a single never-logged-in user with a push token is
pushed by a run at time 1000 and skipped by an immediate second run. -/
theorem claim4_retention_job_witness :
    (1000 : Int) ≤ 1000 + threeDaysSec ∧
    "u1" ∈ (check_and_send_retention_notifications [c4User] c4Tokens []
      1000 (fun _ => true)).1 ∧
    "u1" ∉ (check_and_send_retention_notifications [c4User] c4Tokens
      (check_and_send_retention_notifications [c4User] c4Tokens []
        1000 (fun _ => true)).2 1000 (fun _ => true)).1 :=
  ⟨by decide, by decide,
    (claim4_retention_job [c4User] c4Tokens [] 1000 (fun _ => true)).2.2.2.2
      [c4User] c4Tokens 1000 (fun _ => true) "u1" (by decide) (by decide)⟩

/-- C7: an operation depending on the current user fails with 401 when the
request carries no session token, when the token matches no stored
session, or when the session is expired; it fails with 403 when the stored
user's status is suspended or blocked; and it proceeds as an
authenticated user only when a token was supplied, it resolved to an
unexpired session, and that session's user exists with a status that is
neither suspended nor blocked. -/
theorem claim7_get_current_user (sessions : List SessionDoc)
    (users : List UserDoc) (now : Int) (cookie authHeader : Option String) :
    (get_session_token cookie authHeader = none →
      get_current_user sessions users now cookie authHeader =
        .http 401 "Not authenticated") ∧
    (∀ tok, get_session_token cookie authHeader = some tok →
      sessions.find? (fun s => s.session_token = tok) = none →
      get_current_user sessions users now cookie authHeader =
        .http 401 "Invalid session") ∧
    (∀ tok session, get_session_token cookie authHeader = some tok →
      sessions.find? (fun s => s.session_token = tok) = some session →
      session.expires_at < now →
      get_current_user sessions users now cookie authHeader =
        .http 401 "Session expired") ∧
    (∀ tok session u, get_session_token cookie authHeader = some tok →
      sessions.find? (fun s => s.session_token = tok) = some session →
      ¬session.expires_at < now →
      users.find? (fun x => x.user_id = session.user_id) = some u →
      (u.status.getD "active" = "blocked" ∨
       u.status.getD "active" = "suspended") →
      ∃ d, get_current_user sessions users now cookie authHeader =
        .http 403 d) ∧
    (∀ u, get_current_user sessions users now cookie authHeader = .ok u →
      ∃ tok session, get_session_token cookie authHeader = some tok ∧
        sessions.find? (fun s => s.session_token = tok) = some session ∧
        ¬session.expires_at < now ∧
        users.find? (fun x => x.user_id = session.user_id) = some u ∧
        u.status.getD "active" ≠ "blocked" ∧
        u.status.getD "active" ≠ "suspended") := by
  refine ⟨?_, ?_, ?_, ?_, ?_⟩
  · intro h
    unfold get_current_user
    rw [h]
  · intro tok h1 h2
    simp only [get_current_user, h1, h2]
  · intro tok session h1 h2 h3
    simp only [get_current_user, h1, h2]
    rw [if_pos h3]
  · intro tok session u h1 h2 h3 h4 h5
    simp only [get_current_user, h1, h2, h4]
    rw [if_neg h3]
    rcases h5 with h5 | h5
    · rw [if_pos h5]
      exact ⟨_, rfl⟩
    · by_cases hb : u.status.getD "active" = "blocked"
      · rw [if_pos hb]
        exact ⟨_, rfl⟩
      · rw [if_neg hb, if_pos h5]
        exact ⟨_, rfl⟩
  · intro u h
    unfold get_current_user at h
    cases hg : get_session_token cookie authHeader with
    | none =>
      simp only [hg] at h
      exact absurd h (by simp)
    | some tok =>
      simp only [hg] at h
      cases hf : sessions.find? (fun s => s.session_token = tok) with
      | none =>
        simp only [hf] at h
        exact absurd h (by simp)
      | some session =>
        simp only [hf] at h
        by_cases hexp : session.expires_at < now
        · rw [if_pos hexp] at h
          exact absurd h (by simp)
        · rw [if_neg hexp] at h
          cases hu : users.find? (fun x => x.user_id = session.user_id) with
          | none =>
            simp only [hu] at h
            exact absurd h (by simp)
          | some u' =>
            simp only [hu] at h
            by_cases hb : u'.status.getD "active" = "blocked"
            · rw [if_pos hb] at h
              exact absurd h (by simp)
            · rw [if_neg hb] at h
              by_cases hs : u'.status.getD "active" = "suspended"
              · rw [if_pos hs] at h
                exact absurd h (by simp)
              · rw [if_neg hs] at h
                have hu' : u' = u := by
                  injection h
                subst hu'
                exact ⟨tok, session, rfl, hf, hexp, hu, hb, hs⟩

/-- Witness for C7: with no cookie and no Authorization header the
dependency fails with 401. -/
theorem claim7_get_current_user_witness :
    get_session_token none none = none ∧
    get_current_user [] [] 0 none none = .http 401 "Not authenticated" :=
  ⟨rfl, (claim7_get_current_user [] [] 0 none none).1 rfl⟩

/-- C8: no email notification is ever delivered: `send_email_notification`
returns `False` whether or not SendGrid is configured (the SendGrid
implementation is deferred and only a mock is logged), so the set of users
to whom `notify_previous_participants` delivers an email is always empty,
although the matched users with email notifications enabled are iterated. -/
theorem claim8_email_never_delivered (sendgrid_configured : Bool)
    (users : List UserDoc) (walk : WalkDoc) :
    send_email_notification sendgrid_configured = false ∧
    notify_emails_delivered sendgrid_configured users walk = [] := by
  have hfalse : send_email_notification sendgrid_configured = false := by
    unfold send_email_notification
    split_ifs <;> rfl
  refine ⟨hfalse, ?_⟩
  unfold notify_emails_delivered
  rw [hfalse]
  exact List.filter_false _

/-- C9: with the walk present, `create_booking` rejects with HTTP 400 as
soon as the walk has 10 or more active bookings — regardless of
`max_participants` — returning an error and leaving the bookings
collection unchanged; and any successful booking keeps every walk's
active-booking count at or below 10. -/
theorem claim9_booking_hard_limit (walks : List WalkDoc)
    (bookings : List BookingDoc) (user : UserDoc)
    (walk_id booking_id : String) (now : Int) :
    ((∃ w ∈ walks, w.walk_id = walk_id) →
      10 ≤ count_active bookings walk_id →
      create_booking walks bookings user walk_id booking_id now =
        .error (400,
          "This walk has reached the maximum limit of 10 participants")) ∧
    (∀ (bs' : List BookingDoc) (b : BookingDoc),
      create_booking walks bookings user walk_id booking_id now =
        .ok (bs', b) →
      ∀ wid : String, count_active bookings wid ≤ 10 →
        count_active bs' wid ≤ 10) := by
  constructor
  · intro hex hcnt
    have hsome : (walks.find? (fun w => w.walk_id = walk_id)).isSome := by
      rw [List.find?_isSome]
      obtain ⟨w, hw, hwid⟩ := hex
      exact ⟨w, hw, by simp [hwid]⟩
    unfold create_booking
    rw [if_pos hsome, if_pos hcnt]
  · intro bs' b h wid hw
    unfold create_booking at h
    split_ifs at h with h1 h2 h3
    · injection h with h
      obtain ⟨hbs, hb⟩ := Prod.mk.inj h
      subst hbs
      unfold count_active at hw ⊢
      rw [List.filter_append, List.length_append]
      by_cases hwid : wid = walk_id
      · subst hwid
        simp only [List.filter_cons, List.filter_nil]
        have hlt : ¬(10 ≤ (bookings.filter fun b =>
            b.walk_id = wid && b.status = "active").length) := h2
        simp only [decide_True, Bool.and_self, if_pos]
        simp
        omega
      · have hnil : (List.filter (fun b => b.walk_id = wid && b.status = "active")
            [({ booking_id := booking_id, walk_id := walk_id,
                user_id := user.user_id, user_name := user.name,
                user_email := user.email, booked_at := now,
                status := "active" } : BookingDoc)]) = [] := by
          simp only [List.filter_cons, List.filter_nil]
          have hne : ¬(walk_id = wid) := fun hh => hwid hh.symm
          simp [hne]
        rw [hnil]
        simpa using hw
    all_goals exact absurd h (by simp)

/-- Witness for C9: the walk `w9` allows 50 participants but already has
10 active bookings, so the eleventh booking is rejected with HTTP 400. -/
theorem claim9_booking_hard_limit_witness :
    (∃ w ∈ c9Walks, w.walk_id = "w9") ∧
    10 ≤ count_active c9Bookings "w9" ∧
    create_booking c9Walks c9Bookings c9User "w9" "b_new" 0 =
      .error (400,
        "This walk has reached the maximum limit of 10 participants") :=
  ⟨by decide, by decide,
    (claim9_booking_hard_limit c9Walks c9Bookings c9User "w9" "b_new" 0).1
      (by decide) (by decide)⟩

end WalkWithUs
